import Mathlib

set_option maxHeartbeats 1000000
set_option maxRecDepth 20000

/-!
Shallow embedding of the scan-action orchestrator (src/index.js):
`multipleDefined`, `sourceInput`, and `runScan` (registry-credential
handling, input validation, command-line construction, report
persistence, and the exit-code policy).  Side effects (`core.warning`,
`core.setFailed`, `core.info`, `fs.writeFileSync`, tool installation and
the child-process invocation) are modelled as an explicit event trace.
-/

namespace ScanAction

/-- JavaScript truthiness of a string value: non-empty strings are truthy. -/
def truthy (s : String) : Bool := s != ""

/-- Loop body of `multipleDefined` (src/index.js lines 43-54): walks the
argument list carrying the `defined` flag; returns true as soon as a second
truthy argument is seen. -/
def multipleDefinedAux : Bool → List String → Bool
  | _, [] => false
  | defined, a :: rest =>
    if defined && truthy a then true
    else if truthy a then multipleDefinedAux true rest
    else multipleDefinedAux defined rest

/-- Embeds `multipleDefined(image, path, sbom)` as called from `sourceInput`
(src/index.js line 61). -/
def multipleDefined (image path sbom : String) : Bool :=
  multipleDefinedAux false [image, path, sbom]

/-- Embeds `sourceInput` (src/index.js lines 56-81).  The three raw inputs
are passed as parameters; a thrown `Error` becomes `Except.error` carrying
the message. -/
def sourceInput (image path sbom : String) : Except String String :=
  if multipleDefined image path sbom then
    Except.error "The following options are mutually exclusive: image, path, sbom"
  else if truthy image then Except.ok image
  else if truthy sbom then Except.ok ("sbom:" ++ sbom)
  else if !(truthy path) then Except.ok ("dir:" ++ ".")
  else Except.ok ("dir:" ++ path)

/-- Observable side effects of `runScan`, in program order. -/
inductive Event where
  | warning (msg : String)
  | setFailed (msg : String)
  | info (msg : String)
  | fileWrite (path content : String)
  | install
  | execProc (cmd : String) (args : List String) (env : List (String × String))
  deriving DecidableEq, Repr

def Event.isInstallEv : Event → Bool
  | .install => true
  | _ => false

def Event.isExecEv : Event → Bool
  | .execProc _ _ _ => true
  | _ => false

def Event.isFileWriteEv : Event → Bool
  | .fileWrite _ _ => true
  | _ => false

def Event.isSetFailedEv : Event → Bool
  | .setFailed _ => true
  | _ => false

def Event.isWarningEv : Event → Bool
  | .warning _ => true
  | _ => false

/-- The destructured parameter of `runScan` (src/index.js line 110).  All
fields are the raw configuration strings handed over by `run`. -/
structure ScanConfig where
  source : String
  failBuild : String
  severityCutoff : String
  onlyFixed : String
  outputFormat : String
  addCpesIfNone : String
  deriving DecidableEq, Repr

/-- Ambient inputs `runScan` reads besides its parameter: the two registry
credential action inputs (lines 118-119), the debug flag (`core.isDebug`),
the child-process exit code and captured stdout, and the inherited
`process.env`. -/
structure World where
  registryUser : String
  registryPass : String
  isDebug : Bool
  exitCode : Int
  cmdOutput : String
  baseEnv : List (String × String)
  deriving DecidableEq, Repr

/-- Value produced by a completed `runScan`: the returned `out` map, plus
the argv and environment handed to the child process (recorded here for
specification purposes; they also appear in the `execProc` event). -/
structure RunResult where
  out : List (String × String)
  args : List String
  env : List (String × String)
  deriving DecidableEq, Repr

/-- ASCII lowercasing of one character, as JavaScript `toLowerCase` acts on
the ASCII configuration strings this action deals in. -/
def lowerChar (c : Char) : Char :=
  if 65 ≤ c.toNat && c.toNat ≤ 90 then Char.ofNat (c.toNat + 32) else c

/-- Models `s.toLowerCase()` on ASCII strings, structurally. -/
def lowerStr (s : String) : String := String.mk (s.data.map lowerChar)

/-- Models `Array.prototype.join(" ")` (src/index.js line 205). -/
def joinSpace : List String → String
  | [] => ""
  | [a] => a
  | a :: rest => a ++ " " ++ joinSpace rest

/-- The single-quote character used by the template literals. -/
def squo : String := (Char.ofNat 39).toString

/-- Message of the severity failure / warning (src/index.js lines 255, 262). -/
def severityFailMsg (severityCutoff : String) : String :=
  "Failed minimum severity level. Found vulnerabilities with level " ++
    squo ++ severityCutoff ++ squo ++ " or higher"

/-- Message thrown for an invalid severity-cutoff (src/index.js line 153). -/
def invalidSeverityMsg (severityCutoff : String) : String :=
  "Invalid severity-cutoff value is set to " ++ severityCutoff ++
    " - please ensure you are choosing either negligible, low, medium, high, or critical"

/-- Message thrown for an invalid output-format (src/index.js line 164). -/
def invalidFormatMsg (outputFormat : String) : String :=
  "Invalid output-format value is set to " ++ outputFormat ++
    " - please ensure you are choosing either json or sarif"

/-- Warning emitted when only one registry credential is set (line 126). -/
def credsWarningMsg : String :=
  "WARNING: registry-username and registry-password must be specified together"

/-- Warning emitted on a non-zero exit with empty severity cutoff (line 252). -/
def toolFailureWarningMsg : String :=
  "govulners had a non-zero exit status when running"

def SEVERITY_LIST : List String :=
  ["negligible", "low", "medium", "high", "critical"]

def FORMAT_LIST : List String := ["sarif", "json", "table"]

/-- Embeds the exit-code policy at the end of `runScan` (src/index.js lines
248-265): the events it emits, given the exit code, the severity cutoff
string and the already-parsed failBuild boolean. -/
def exitCodePolicy (exitCode : Int) (severityCutoff : String) (failBuild : Bool) :
    List Event :=
  if exitCode > 0 then
    if !(truthy severityCutoff) then
      [Event.warning toolFailureWarningMsg]
    else if failBuild then
      [Event.setFailed (severityFailMsg severityCutoff)]
    else
      [Event.warning (severityFailMsg severityCutoff)]
  else []

/-- Embeds `runScan` (src/index.js lines 110-268).  Returns the event trace
emitted up to termination together with either the thrown error message or
the returned result.  `core.debug` calls are silent in the action log and
are not modelled as events. -/
def runScan (cfg : ScanConfig) (w : World) : List Event × Except String RunResult :=
  -- lines 113-116: env spread plus the auto-update suppression override
  let env0 := w.baseEnv ++ [("GOVULNERS_CHECK_FOR_APP_UPDATE", "false")]
  -- lines 121-129: registry credentials; both env vars are assigned whenever
  -- at least one credential is truthy, and a warning fires when not both are
  let env :=
    if truthy w.registryUser || truthy w.registryPass then
      env0 ++ [("GOVULNERS_REGISTRY_AUTH_USERNAME", w.registryUser),
               ("GOVULNERS_REGISTRY_AUTH_PASSWORD", w.registryPass)]
    else env0
  let credEvents : List Event :=
    if (truthy w.registryUser || truthy w.registryPass) &&
        (!(truthy w.registryUser) || !(truthy w.registryPass)) then
      [Event.warning credsWarningMsg]
    else []
  -- lines 139-141
  let failBuild := lowerStr cfg.failBuild == "true"
  let onlyFixed := lowerStr cfg.onlyFixed == "true"
  let addCpesIfNone := lowerStr cfg.addCpesIfNone == "true"
  -- lines 133-143: cmdArgs pushes before validation
  let cmdArgs0 := (if w.isDebug then ["-vv"] else []) ++ ["-o", cfg.outputFormat]
  -- lines 145-155: severity-cutoff validation (the typeof conjunct of the
  -- source is always true and drops out)
  if !(SEVERITY_LIST.any fun item => item == lowerStr cfg.severityCutoff) then
    (credEvents, Except.error (invalidSeverityMsg cfg.severityCutoff))
  -- lines 156-166: output-format validation
  else if !(FORMAT_LIST.any fun item => item == lowerStr cfg.outputFormat) then
    (credEvents, Except.error (invalidFormatMsg cfg.outputFormat))
  else
    -- lines 183-193: remaining cmdArgs pushes
    let cmdArgs := cmdArgs0 ++
      (if cfg.severityCutoff != "" then ["--fail-on", lowerStr cfg.severityCutoff]
       else []) ++
      (if onlyFixed then ["--only-fixed"] else []) ++
      (if addCpesIfNone then ["--add-cpes-if-none"] else []) ++
      [cfg.source]
    -- line 169: installGovulners; lines 204-223: child-process invocation
    let eventsExec := credEvents ++
      [Event.install,
       Event.info ("Executing: govulners " ++ joinSpace cmdArgs),
       Event.execProc "govulners" cmdArgs env]
    -- lines 230-245: report persistence switch (case-sensitive match)
    let outAndEvents :=
      if cfg.outputFormat == "sarif" then
        ([("sarif", "./results.sarif")],
         eventsExec ++ [Event.fileWrite "./results.sarif" w.cmdOutput])
      else if cfg.outputFormat == "json" then
        ([("json", "./results.json")],
         eventsExec ++ [Event.fileWrite "./results.json" w.cmdOutput])
      else
        ([], eventsExec ++ [Event.info w.cmdOutput])
    -- lines 248-265: exit-code policy
    let events := outAndEvents.2 ++ exitCodePolicy w.exitCode cfg.severityCutoff failBuild
    (events, Except.ok ⟨outAndEvents.1, cmdArgs, env⟩)

deriving instance DecidableEq for Except

/-- Environment handed to the child process, as assembled by lines 113-129:
the inherited environment, the auto-update suppression override, then both
registry variables whenever at least one credential input is truthy. -/
def envOf (w : World) : List (String × String) :=
  let env0 := w.baseEnv ++ [("GOVULNERS_CHECK_FOR_APP_UPDATE", "false")]
  if truthy w.registryUser || truthy w.registryPass then
    env0 ++ [("GOVULNERS_REGISTRY_AUTH_USERNAME", w.registryUser),
             ("GOVULNERS_REGISTRY_AUTH_PASSWORD", w.registryPass)]
  else env0

/-- Events emitted by the credential block (lines 121-129): a single warning
exactly when at least one but not both credentials are truthy. -/
def credEventsOf (w : World) : List Event :=
  if (truthy w.registryUser || truthy w.registryPass) &&
      (!(truthy w.registryUser) || !(truthy w.registryPass)) then
    [Event.warning credsWarningMsg]
  else []

/-- The complete child-process argument list assembled by the pushes at
lines 133-193, in push order. -/
def buildArgs (cfg : ScanConfig) (isDebug : Bool) : List String :=
  (if isDebug then ["-vv"] else []) ++
  ["-o", cfg.outputFormat] ++
  (if cfg.severityCutoff != "" then ["--fail-on", lowerStr cfg.severityCutoff]
   else []) ++
  (if lowerStr cfg.onlyFixed == "true" then ["--only-fixed"] else []) ++
  (if lowerStr cfg.addCpesIfNone == "true" then ["--add-cpes-if-none"] else []) ++
  [cfg.source]

/-- The `out` map produced by the persistence switch at lines 230-245. -/
def persistOut (fmt : String) : List (String × String) :=
  if fmt == "sarif" then [("sarif", "./results.sarif")]
  else if fmt == "json" then [("json", "./results.json")]
  else []

/-- Events emitted by the persistence switch at lines 230-245. -/
def persistEvents (fmt output : String) : List Event :=
  if fmt == "sarif" then [Event.fileWrite "./results.sarif" output]
  else if fmt == "json" then [Event.fileWrite "./results.json" output]
  else [Event.info output]

/-- Characterization of `runScan` when the severity-cutoff validation at
lines 145-155 rejects the input: the thrown error, with only the credential
events emitted. -/
theorem runScan_invalid_sev (cfg : ScanConfig) (w : World)
    (hsev : (SEVERITY_LIST.any fun item => item == lowerStr cfg.severityCutoff) = false) :
    runScan cfg w = (credEventsOf w, Except.error (invalidSeverityMsg cfg.severityCutoff)) := by
  simp only [runScan, hsev, credEventsOf, Bool.not_false, if_true]

/-- Characterization of `runScan` when the output-format validation at
lines 156-166 rejects the input. -/
theorem runScan_invalid_fmt (cfg : ScanConfig) (w : World)
    (hsev : (SEVERITY_LIST.any fun item => item == lowerStr cfg.severityCutoff) = true)
    (hfmt : (FORMAT_LIST.any fun item => item == lowerStr cfg.outputFormat) = false) :
    runScan cfg w = (credEventsOf w, Except.error (invalidFormatMsg cfg.outputFormat)) := by
  simp only [runScan, hsev, hfmt, credEventsOf, Bool.not_false, Bool.not_true, if_true,
    Bool.false_eq_true, if_false]

/-- Characterization of a validated `runScan`: the full event trace in
program order and the returned result. -/
theorem runScan_ok_eq (cfg : ScanConfig) (w : World)
    (hsev : (SEVERITY_LIST.any fun item => item == lowerStr cfg.severityCutoff) = true)
    (hfmt : (FORMAT_LIST.any fun item => item == lowerStr cfg.outputFormat) = true) :
    runScan cfg w =
      (credEventsOf w ++
        [Event.install,
         Event.info ("Executing: govulners " ++ joinSpace (buildArgs cfg w.isDebug)),
         Event.execProc "govulners" (buildArgs cfg w.isDebug) (envOf w)] ++
        persistEvents cfg.outputFormat w.cmdOutput ++
        exitCodePolicy w.exitCode cfg.severityCutoff (lowerStr cfg.failBuild == "true"),
       Except.ok ⟨persistOut cfg.outputFormat, buildArgs cfg w.isDebug, envOf w⟩) := by
  simp only [runScan, hsev, hfmt, Bool.not_true, Bool.false_eq_true, if_false,
    credEventsOf, envOf, buildArgs, persistEvents, persistOut]
  cases hs : (cfg.outputFormat == "sarif") <;>
    cases hj : (cfg.outputFormat == "json") <;>
      simp [hs, hj, List.append_assoc]

/-- Characterization of `multipleDefined`: true exactly when at least two of
the three inputs are non-empty. -/
theorem multipleDefined_iff (a b c : String) :
    multipleDefined a b c = true ↔
      ((a ≠ "" ∧ b ≠ "") ∨ (a ≠ "" ∧ c ≠ "") ∨ (b ≠ "" ∧ c ≠ "")) := by
  by_cases ha : a = "" <;> by_cases hb : b = "" <;> by_cases hc : c = "" <;>
    simp [multipleDefined, multipleDefinedAux, truthy, ha, hb, hc]

/-- Decomposition of the severity-failure message around the cutoff value it
names. -/
theorem severityFailMsg_decomp (c : String) :
    severityFailMsg c =
      ("Failed minimum severity level. Found vulnerabilities with level " ++ squo) ++ c ++
        (squo ++ " or higher") := by
  apply String.ext
  simp [severityFailMsg, String.data_append, List.append_assoc]

/-- A substring of `p` is a substring of `p ++ q`. -/
theorem isInfix_data_append_left (x p q : String) (h : List.IsInfix x.data p.data) :
    List.IsInfix x.data (p ++ q).data := by
  rcases h with ⟨s, t, hst⟩
  refine ⟨s, t ++ q.data, ?_⟩
  rw [String.data_append, ← hst]
  simp [List.append_assoc]

/-- A substring of `q` is a substring of `p ++ q`. -/
theorem isInfix_data_append_right (x p q : String) (h : List.IsInfix x.data q.data) :
    List.IsInfix x.data (p ++ q).data := by
  rcases h with ⟨s, t, hst⟩
  refine ⟨p.data ++ s, t, ?_⟩
  rw [String.data_append, ← hst]
  simp [List.append_assoc]

/-- A severity cutoff accepted by the validation at lines 145-155 is
non-empty. -/
theorem sev_valid_ne_empty (c : String)
    (h : (SEVERITY_LIST.any fun item => item == lowerStr c) = true) : c ≠ "" := by
  intro hc
  subst hc
  exact absurd h (by decide)

theorem credEventsOf_no_install (w : World) :
    ((credEventsOf w).any Event.isInstallEv) = false := by
  unfold credEventsOf; split <;> simp [Event.isInstallEv]

theorem credEventsOf_no_exec (w : World) :
    ((credEventsOf w).any Event.isExecEv) = false := by
  unfold credEventsOf; split <;> simp [Event.isExecEv]

theorem credEventsOf_no_fileWrite (w : World) :
    ((credEventsOf w).any Event.isFileWriteEv) = false := by
  unfold credEventsOf; split <;> simp [Event.isFileWriteEv]

theorem exitCodePolicy_no_fileWrite (e : Int) (c : String) (fb : Bool) :
    ((exitCodePolicy e c fb).any Event.isFileWriteEv) = false := by
  unfold exitCodePolicy
  split <;> [skip; simp]
  split <;> [simp [Event.isFileWriteEv]; split <;> simp [Event.isFileWriteEv]]

/-- Inversion for a `runScan` that returned normally: both validations
passed, the result components are as assembled, and the event trace has the
canonical program-order shape. -/
theorem runScan_ok_inv (cfg : ScanConfig) (w : World) (r : RunResult)
    (hok : (runScan cfg w).2 = Except.ok r) :
    (SEVERITY_LIST.any fun item => item == lowerStr cfg.severityCutoff) = true ∧
    (FORMAT_LIST.any fun item => item == lowerStr cfg.outputFormat) = true ∧
    r = ⟨persistOut cfg.outputFormat, buildArgs cfg w.isDebug, envOf w⟩ ∧
    (runScan cfg w).1 =
      credEventsOf w ++
        [Event.install,
         Event.info ("Executing: govulners " ++ joinSpace (buildArgs cfg w.isDebug)),
         Event.execProc "govulners" (buildArgs cfg w.isDebug) (envOf w)] ++
        persistEvents cfg.outputFormat w.cmdOutput ++
        exitCodePolicy w.exitCode cfg.severityCutoff (lowerStr cfg.failBuild == "true") := by
  cases hsev : (SEVERITY_LIST.any fun item => item == lowerStr cfg.severityCutoff) with
  | false => rw [runScan_invalid_sev cfg w hsev] at hok; simp at hok
  | true =>
    cases hfmt : (FORMAT_LIST.any fun item => item == lowerStr cfg.outputFormat) with
    | false => rw [runScan_invalid_fmt cfg w hsev hfmt] at hok; simp at hok
    | true =>
      have heq := runScan_ok_eq cfg w hsev hfmt
      rw [heq] at hok
      simp only [] at hok
      refine ⟨rfl, rfl, ?_, ?_⟩
      · exact (Except.ok.inj hok).symm
      · rw [heq]

/-- Claim C1: for a scan run reaching the exit-code policy with a non-empty
severityCutoff, exit code 0 emits no failure and no warning regardless of
other settings; a positive exit code with failBuild true marks the run
failed with a message naming the severity threshold; a positive exit code
with failBuild false emits a warning with the same message and does not
mark the run failed. -/
theorem claim_C1_exit_code_policy (e : Int) (c : String) (fb : Bool) (h : c ≠ "") :
    (e = 0 → exitCodePolicy e c fb = []) ∧
    (e > 0 → fb = true →
      exitCodePolicy e c fb = [Event.setFailed (severityFailMsg c)] ∧
      ∃ a b, severityFailMsg c = a ++ c ++ b) ∧
    (e > 0 → fb = false →
      exitCodePolicy e c fb = [Event.warning (severityFailMsg c)] ∧
      ∃ a b, severityFailMsg c = a ++ c ++ b) := by
  refine ⟨?_, ?_, ?_⟩
  · intro he; subst he; simp [exitCodePolicy]
  · intro he hfb; subst hfb
    simp [exitCodePolicy, he, truthy, h]
    exact ⟨_, _, severityFailMsg_decomp c⟩
  · intro he hfb; subst hfb
    simp [exitCodePolicy, he, truthy, h]
    exact ⟨_, _, severityFailMsg_decomp c⟩

/-- Claim C1 witness: the policy at exit code 2, cutoff high, failBuild
true. -/
theorem claim_C1_witness :
    exitCodePolicy 2 "high" true = [Event.setFailed (severityFailMsg "high")] ∧
    ∃ a b, severityFailMsg "high" = a ++ "high" ++ b :=
  (claim_C1_exit_code_policy 2 "high" true (by decide)).2.1 (by decide) rfl

/-- Claim C2 counterexample: with registry-username alice and an empty
registry-password, the credential warning is emitted but the username IS
passed to the child environment (both variables are assigned), refuting
that neither credential is passed. -/
theorem claim_C2_counterexample :
    Event.warning credsWarningMsg ∈
      (runScan ⟨"dir:.", "true", "medium", "false", "sarif", "false"⟩
        ⟨"alice", "", false, 0, "OUT", []⟩).1 ∧
    (runScan ⟨"dir:.", "true", "medium", "false", "sarif", "false"⟩
        ⟨"alice", "", false, 0, "OUT", []⟩).2 =
      Except.ok ⟨[("sarif", "./results.sarif")],
        ["-o", "sarif", "--fail-on", "medium", "dir:."],
        [("GOVULNERS_CHECK_FOR_APP_UPDATE", "false"),
         ("GOVULNERS_REGISTRY_AUTH_USERNAME", "alice"),
         ("GOVULNERS_REGISTRY_AUTH_PASSWORD", "")]⟩ := by
  refine ⟨by decide, by decide⟩

/-- Claim C2 (amended): whenever at least one registry credential is set,
both GOVULNERS_REGISTRY_AUTH_USERNAME and GOVULNERS_REGISTRY_AUTH_PASSWORD
are set in the child environment (the missing one as the empty string);
when exactly one is set a non-fatal warning is additionally emitted; and
the credentials never travel via argv, which depends only on the scan
request and the debug flag. -/
theorem claim_C2_amended (cfg : ScanConfig) (w : World) (r : RunResult)
    (hok : (runScan cfg w).2 = Except.ok r) :
    (truthy w.registryUser = true ∨ truthy w.registryPass = true →
      ("GOVULNERS_REGISTRY_AUTH_USERNAME", w.registryUser) ∈ r.env ∧
      ("GOVULNERS_REGISTRY_AUTH_PASSWORD", w.registryPass) ∈ r.env) ∧
    ((truthy w.registryUser = true ∧ truthy w.registryPass = false) ∨
      (truthy w.registryUser = false ∧ truthy w.registryPass = true) →
      Event.warning credsWarningMsg ∈ (runScan cfg w).1) ∧
    r.args = buildArgs cfg w.isDebug := by
  obtain ⟨hsev, hfmt, hr, htr⟩ := runScan_ok_inv cfg w r hok
  subst hr
  refine ⟨?_, ?_, rfl⟩
  · intro hcred
    have hor : (truthy w.registryUser || truthy w.registryPass) = true := by
      rcases hcred with h | h <;> simp [h]
    simp [envOf, hor]
  · intro hone
    rw [htr]
    have hce : credEventsOf w = [Event.warning credsWarningMsg] := by
      unfold credEventsOf
      rcases hone with ⟨h1, h2⟩ | ⟨h1, h2⟩ <;> simp [h1, h2]
    simp [hce]

/-- Claim C2 witness: the username-only case at a concrete run. -/
theorem claim_C2_witness :
    Event.warning credsWarningMsg ∈
      (runScan ⟨"dir:.", "true", "medium", "false", "sarif", "false"⟩
        ⟨"alice", "", false, 0, "OUT", []⟩).1 :=
  (claim_C2_amended ⟨"dir:.", "true", "medium", "false", "sarif", "false"⟩
      ⟨"alice", "", false, 0, "OUT", []⟩
      ⟨[("sarif", "./results.sarif")],
        ["-o", "sarif", "--fail-on", "medium", "dir:."],
        [("GOVULNERS_CHECK_FOR_APP_UPDATE", "false"),
         ("GOVULNERS_REGISTRY_AUTH_USERNAME", "alice"),
         ("GOVULNERS_REGISTRY_AUTH_PASSWORD", "")]⟩
      (by decide)).2.1 (Or.inl ⟨by decide, by decide⟩)

/-- Claim C3 counterexample: with severityCutoff empty and exit code 3, the
run does not reach the exit-code policy at all; `runScan` throws the
invalid-severity configuration error with an empty event trace, so no
tool-internal warning is emitted. -/
theorem claim_C3_counterexample :
    runScan ⟨"dir:.", "true", "", "false", "sarif", "false"⟩
        ⟨"", "", false, 3, "OUT", []⟩ =
      ([], Except.error (invalidSeverityMsg "")) := by decide

/-- Claim C3 (amended): an empty severityCutoff is rejected by the
validation before any child process starts, so the tool-internal-warning
path is unreachable through `runScan`; the exit-code policy itself, if
evaluated with an empty cutoff and a positive exit code, emits exactly the
non-fatal tool-internal warning and no failure. -/
theorem claim_C3_amended (cfg : ScanConfig) (w : World) (h : cfg.severityCutoff = "")
    (e : Int) (fb : Bool) (he : e > 0) :
    (runScan cfg w).2 = Except.error (invalidSeverityMsg "") ∧
    ((runScan cfg w).1.any Event.isExecEv) = false ∧
    exitCodePolicy e "" fb = [Event.warning toolFailureWarningMsg] := by
  have hsev : (SEVERITY_LIST.any fun item => item == lowerStr cfg.severityCutoff) = false := by
    rw [h]; decide
  rw [runScan_invalid_sev cfg w hsev, h]
  exact ⟨rfl, credEventsOf_no_exec w, by simp [exitCodePolicy, he, truthy]⟩

/-- Claim C3 witness: the amended statement at exit code 3. -/
theorem claim_C3_witness :
    (runScan ⟨"dir:.", "true", "", "false", "sarif", "false"⟩
        ⟨"", "", false, 3, "OUT", []⟩).2 = Except.error (invalidSeverityMsg "") ∧
    ((runScan ⟨"dir:.", "true", "", "false", "sarif", "false"⟩
        ⟨"", "", false, 3, "OUT", []⟩).1.any Event.isExecEv) = false ∧
    exitCodePolicy 3 "" true = [Event.warning toolFailureWarningMsg] :=
  claim_C3_amended ⟨"dir:.", "true", "", "false", "sarif", "false"⟩
    ⟨"", "", false, 3, "OUT", []⟩ rfl 3 true (by decide)

/-- Claim C4: whenever more than one of image, path and sbom is non-empty,
`sourceInput` fails with the mutual-exclusion error naming all three, and
no source string is returned. -/
theorem claim_C4_mutual_exclusion (image path sbom : String)
    (h : (image ≠ "" ∧ path ≠ "") ∨ (image ≠ "" ∧ sbom ≠ "") ∨ (path ≠ "" ∧ sbom ≠ "")) :
    sourceInput image path sbom =
      Except.error "The following options are mutually exclusive: image, path, sbom" := by
  have hm : multipleDefined image path sbom = true := (multipleDefined_iff _ _ _).mpr h
  simp [sourceInput, hm]

/-- Claim C4 witness: image and sbom both set. -/
theorem claim_C4_witness :
    sourceInput "alpine:3.18" "" "bom.json" =
      Except.error "The following options are mutually exclusive: image, path, sbom" :=
  claim_C4_mutual_exclusion "alpine:3.18" "" "bom.json" (Or.inr (Or.inl ⟨by decide, by decide⟩))

/-- Claim C5: with at most one of the three inputs non-empty, a non-empty
image is returned unchanged; otherwise a non-empty sbom is returned with
the sbom marker; otherwise the path (defaulting to ".") is returned with
the directory marker; in particular the all-empty triple resolves to the
directory-typed source for ".". -/
theorem claim_C5_source_resolution (image path sbom : String)
    (h : (path = "" ∧ sbom = "") ∨ (image = "" ∧ sbom = "") ∨ (image = "" ∧ path = "")) :
    (image ≠ "" → sourceInput image path sbom = Except.ok image) ∧
    (image = "" → sbom ≠ "" → sourceInput image path sbom = Except.ok ("sbom:" ++ sbom)) ∧
    (image = "" → sbom = "" → path ≠ "" → sourceInput image path sbom = Except.ok ("dir:" ++ path)) ∧
    (image = "" → sbom = "" → path = "" → sourceInput image path sbom = Except.ok "dir:.") ∧
    sourceInput "" "" "" = Except.ok "dir:." := by
  by_cases hi : image = "" <;> by_cases hp : path = "" <;> by_cases hs : sbom = "" <;>
    simp_all [sourceInput, multipleDefined, multipleDefinedAux, truthy]

/-- Claim C5 witness: the all-empty triple. -/
theorem claim_C5_witness : sourceInput "" "" "" = Except.ok "dir:." :=
  (claim_C5_source_resolution "" "" "" (Or.inl ⟨rfl, rfl⟩)).2.2.2.1 rfl rfl rfl

/-- Claim C6 counterexample: for outputFormat xml the thrown message does
not name the allowed value table, although table passes validation; so the
error does not name all allowed values as claimed. -/
theorem claim_C6_counterexample :
    (runScan ⟨"dir:.", "true", "medium", "false", "xml", "false"⟩
        ⟨"", "", false, 0, "OUT", []⟩).2 =
      Except.error (invalidFormatMsg "xml") ∧
    ¬ List.IsInfix "table".data (invalidFormatMsg "xml").data ∧
    "table" ∈ FORMAT_LIST := by
  refine ⟨by decide, by decide, by decide⟩

/-- Claim C6 (amended): values failing the case-insensitive validation are
rejected with a configuration error before any installation or child
process; the severity message names the field and all five allowed values,
while the output-format message names the field and the values json and
sarif only (omitting table); values passing the case-insensitive check
complete the run. -/
theorem claim_C6_amended (cfg : ScanConfig) (w : World) :
    ((SEVERITY_LIST.any fun item => item == lowerStr cfg.severityCutoff) = false →
      (runScan cfg w).2 = Except.error (invalidSeverityMsg cfg.severityCutoff) ∧
      ((runScan cfg w).1.any Event.isInstallEv) = false ∧
      ((runScan cfg w).1.any Event.isExecEv) = false ∧
      List.IsInfix "severity-cutoff".data (invalidSeverityMsg cfg.severityCutoff).data ∧
      ∀ v ∈ SEVERITY_LIST,
        List.IsInfix v.data (invalidSeverityMsg cfg.severityCutoff).data) ∧
    ((SEVERITY_LIST.any fun item => item == lowerStr cfg.severityCutoff) = true →
      (FORMAT_LIST.any fun item => item == lowerStr cfg.outputFormat) = false →
      (runScan cfg w).2 = Except.error (invalidFormatMsg cfg.outputFormat) ∧
      ((runScan cfg w).1.any Event.isInstallEv) = false ∧
      ((runScan cfg w).1.any Event.isExecEv) = false ∧
      List.IsInfix "output-format".data (invalidFormatMsg cfg.outputFormat).data ∧
      List.IsInfix "json".data (invalidFormatMsg cfg.outputFormat).data ∧
      List.IsInfix "sarif".data (invalidFormatMsg cfg.outputFormat).data) ∧
    ((SEVERITY_LIST.any fun item => item == lowerStr cfg.severityCutoff) = true →
      (FORMAT_LIST.any fun item => item == lowerStr cfg.outputFormat) = true →
      ∃ r, (runScan cfg w).2 = Except.ok r) := by
  refine ⟨?_, ?_, ?_⟩
  · intro hsev
    rw [runScan_invalid_sev cfg w hsev]
    refine ⟨rfl, credEventsOf_no_install w, credEventsOf_no_exec w, ?_, ?_⟩
    · unfold invalidSeverityMsg
      exact isInfix_data_append_left _ _ _ (isInfix_data_append_left _ _ _ (by decide))
    · intro v hv
      unfold invalidSeverityMsg
      simp only [SEVERITY_LIST, List.mem_cons, List.not_mem_nil, or_false] at hv
      rcases hv with rfl | rfl | rfl | rfl | rfl <;>
        exact isInfix_data_append_right _ _ _ (by decide)
  · intro hsev hfmt
    rw [runScan_invalid_fmt cfg w hsev hfmt]
    refine ⟨rfl, credEventsOf_no_install w, credEventsOf_no_exec w, ?_, ?_, ?_⟩
    · unfold invalidFormatMsg
      exact isInfix_data_append_left _ _ _ (isInfix_data_append_left _ _ _ (by decide))
    · unfold invalidFormatMsg
      exact isInfix_data_append_right _ _ _ (by decide)
    · unfold invalidFormatMsg
      exact isInfix_data_append_right _ _ _ (by decide)
  · intro hsev hfmt
    exact ⟨_, by rw [runScan_ok_eq cfg w hsev hfmt]⟩

/-- Claim C6 witness: the output-format branch at the invalid value xml. -/
theorem claim_C6_witness :
    (runScan ⟨"dir:.", "true", "medium", "false", "xml", "false"⟩
        ⟨"", "", false, 0, "OUT", []⟩).2 = Except.error (invalidFormatMsg "xml") ∧
    (((runScan ⟨"dir:.", "true", "medium", "false", "xml", "false"⟩
        ⟨"", "", false, 0, "OUT", []⟩).1).any Event.isInstallEv) = false ∧
    (((runScan ⟨"dir:.", "true", "medium", "false", "xml", "false"⟩
        ⟨"", "", false, 0, "OUT", []⟩).1).any Event.isExecEv) = false ∧
    List.IsInfix "output-format".data (invalidFormatMsg "xml").data ∧
    List.IsInfix "json".data (invalidFormatMsg "xml").data ∧
    List.IsInfix "sarif".data (invalidFormatMsg "xml").data :=
  (claim_C6_amended ⟨"dir:.", "true", "medium", "false", "xml", "false"⟩
    ⟨"", "", false, 0, "OUT", []⟩).2.1 (by decide) (by decide)

/-- Claim C7: for every completed run, argv is exactly the optional verbose
flag, the output-format flag and value, the optional fail-on pair, the
optional only-fixed and add-cpes-if-none flags, and finally the source as
the last positional argument; and exactly this list is handed to the child
process. -/
theorem claim_C7_arg_order (cfg : ScanConfig) (w : World) (r : RunResult)
    (hok : (runScan cfg w).2 = Except.ok r) :
    r.args =
      (if w.isDebug then ["-vv"] else []) ++
      ["-o", cfg.outputFormat] ++
      (if cfg.severityCutoff != "" then ["--fail-on", lowerStr cfg.severityCutoff]
       else []) ++
      (if lowerStr cfg.onlyFixed == "true" then ["--only-fixed"] else []) ++
      (if lowerStr cfg.addCpesIfNone == "true" then ["--add-cpes-if-none"] else []) ++
      [cfg.source] ∧
    Event.execProc "govulners" r.args r.env ∈ (runScan cfg w).1 := by
  obtain ⟨hsev, hfmt, hr, htr⟩ := runScan_ok_inv cfg w r hok
  subst hr
  refine ⟨rfl, ?_⟩
  rw [htr]
  simp [buildArgs]

/-- Claim C7 witness: a debug-mode run with every optional flag enabled. -/
theorem claim_C7_witness :
    (RunResult.mk [("json", "./results.json")]
      ["-vv", "-o", "json", "--fail-on", "high", "--only-fixed", "--add-cpes-if-none",
        "sbom:bom.json"]
      [("GOVULNERS_CHECK_FOR_APP_UPDATE", "false")]).args =
      ["-vv", "-o", "json", "--fail-on", "high", "--only-fixed", "--add-cpes-if-none",
        "sbom:bom.json"] ∧
    Event.execProc "govulners"
      (RunResult.mk [("json", "./results.json")]
        ["-vv", "-o", "json", "--fail-on", "high", "--only-fixed", "--add-cpes-if-none",
          "sbom:bom.json"]
        [("GOVULNERS_CHECK_FOR_APP_UPDATE", "false")]).args
      (RunResult.mk [("json", "./results.json")]
        ["-vv", "-o", "json", "--fail-on", "high", "--only-fixed", "--add-cpes-if-none",
          "sbom:bom.json"]
        [("GOVULNERS_CHECK_FOR_APP_UPDATE", "false")]).env ∈
      (runScan ⟨"sbom:bom.json", "false", "HIGH", "TRUE", "json", "true"⟩
        ⟨"", "", true, 0, "OUT", []⟩).1 :=
  claim_C7_arg_order ⟨"sbom:bom.json", "false", "HIGH", "TRUE", "json", "true"⟩
    ⟨"", "", true, 0, "OUT", []⟩
    ⟨[("json", "./results.json")],
      ["-vv", "-o", "json", "--fail-on", "high", "--only-fixed", "--add-cpes-if-none",
        "sbom:bom.json"],
      [("GOVULNERS_CHECK_FOR_APP_UPDATE", "false")]⟩ (by decide)

/-- Claim C8: on a completed run, format json writes the captured output to
./results.json and returns only the json key; format sarif analogously
returns only the sarif key; format table writes no file, returns an empty
map and logs the captured output informationally. -/
theorem claim_C8_output_persistence (cfg : ScanConfig) (w : World) (r : RunResult)
    (hok : (runScan cfg w).2 = Except.ok r) :
    (cfg.outputFormat = "json" →
      r.out = [("json", "./results.json")] ∧
      Event.fileWrite "./results.json" w.cmdOutput ∈ (runScan cfg w).1 ∧
      ∀ p, ("sarif", p) ∉ r.out) ∧
    (cfg.outputFormat = "sarif" →
      r.out = [("sarif", "./results.sarif")] ∧
      Event.fileWrite "./results.sarif" w.cmdOutput ∈ (runScan cfg w).1 ∧
      ∀ p, ("json", p) ∉ r.out) ∧
    (cfg.outputFormat = "table" →
      r.out = [] ∧
      ((runScan cfg w).1.any Event.isFileWriteEv) = false ∧
      Event.info w.cmdOutput ∈ (runScan cfg w).1) := by
  obtain ⟨hsev, hfmt, hr, htr⟩ := runScan_ok_inv cfg w r hok
  subst hr
  refine ⟨?_, ?_, ?_⟩ <;> intro hf <;> rw [htr]
  · exact ⟨by simp [persistOut, hf], by simp [persistEvents, hf], by simp [persistOut, hf]⟩
  · exact ⟨by simp [persistOut, hf], by simp [persistEvents, hf], by simp [persistOut, hf]⟩
  · refine ⟨by simp [persistOut, hf], ?_, by simp [persistEvents, hf]⟩
    simp [List.any_append, credEventsOf_no_fileWrite, exitCodePolicy_no_fileWrite,
      persistEvents, hf, Event.isFileWriteEv]

/-- Claim C8 witness: the json branch at a concrete run. -/
theorem claim_C8_witness :
    (RunResult.mk [("json", "./results.json")]
        ["-o", "json", "--fail-on", "medium", "dir:."]
        [("GOVULNERS_CHECK_FOR_APP_UPDATE", "false")]).out =
      [("json", "./results.json")] ∧
    Event.fileWrite "./results.json" "CAPTURED" ∈
      (runScan ⟨"dir:.", "true", "medium", "false", "json", "false"⟩
        ⟨"", "", false, 0, "CAPTURED", []⟩).1 ∧
    ∀ p, ("sarif", p) ∉
      (RunResult.mk [("json", "./results.json")]
        ["-o", "json", "--fail-on", "medium", "dir:."]
        [("GOVULNERS_CHECK_FOR_APP_UPDATE", "false")]).out :=
  (claim_C8_output_persistence ⟨"dir:.", "true", "medium", "false", "json", "false"⟩
    ⟨"", "", false, 0, "CAPTURED", []⟩
    ⟨[("json", "./results.json")],
      ["-o", "json", "--fail-on", "medium", "dir:."],
      [("GOVULNERS_CHECK_FOR_APP_UPDATE", "false")]⟩ (by decide)).1 rfl

/-- Claim C9: a run that ends in a severity-driven failure (validated
cutoff, parsed failBuild true, positive exit code) with a file-producing
output format persists the report file and only then raises the failure
signal: the trace ends with the file write immediately followed by the
setFailed event. -/
theorem claim_C9_report_before_failure (cfg : ScanConfig) (w : World)
    (hsev : (SEVERITY_LIST.any fun item => item == lowerStr cfg.severityCutoff) = true)
    (hfb : lowerStr cfg.failBuild = "true")
    (he : w.exitCode > 0)
    (hfc : cfg.outputFormat = "sarif" ∨ cfg.outputFormat = "json") :
    ∃ pre p, (runScan cfg w).1 =
      pre ++ [Event.fileWrite p w.cmdOutput,
              Event.setFailed (severityFailMsg cfg.severityCutoff)] := by
  have hfmt : (FORMAT_LIST.any fun item => item == lowerStr cfg.outputFormat) = true := by
    rcases hfc with h | h <;> rw [h] <;> decide
  have hne := sev_valid_ne_empty cfg.severityCutoff hsev
  have hpol : exitCodePolicy w.exitCode cfg.severityCutoff (lowerStr cfg.failBuild == "true") =
      [Event.setFailed (severityFailMsg cfg.severityCutoff)] := by
    simp [exitCodePolicy, he, truthy, hne, hfb]
  rw [runScan_ok_eq cfg w hsev hfmt]
  rcases hfc with h | h <;> rw [h]
  · exact ⟨credEventsOf w ++ [Event.install,
      Event.info ("Executing: govulners " ++ joinSpace (buildArgs cfg w.isDebug)),
      Event.execProc "govulners" (buildArgs cfg w.isDebug) (envOf w)], "./results.sarif",
      by simp [persistEvents, hpol, List.append_assoc]⟩
  · exact ⟨credEventsOf w ++ [Event.install,
      Event.info ("Executing: govulners " ++ joinSpace (buildArgs cfg w.isDebug)),
      Event.execProc "govulners" (buildArgs cfg w.isDebug) (envOf w)], "./results.json",
      by simp [persistEvents, hpol, List.append_assoc]⟩

/-- Claim C9 witness: a failing sarif run at exit code 2. -/
theorem claim_C9_witness :
    ∃ pre p, (runScan ⟨"dir:.", "true", "medium", "false", "sarif", "false"⟩
        ⟨"", "", false, 2, "OUT", []⟩).1 =
      pre ++ [Event.fileWrite p "OUT", Event.setFailed (severityFailMsg "medium")] :=
  claim_C9_report_before_failure ⟨"dir:.", "true", "medium", "false", "sarif", "false"⟩
    ⟨"", "", false, 2, "OUT", []⟩ (by decide) (by decide) (by decide) (Or.inl rfl)

/-- Claim C10: a completed run whose outputFormat is not exactly the
lowercase sarif or json (for example SARIF, which still passes the
case-insensitive validation) writes no report file, returns an empty
outputs map, and sends the captured output to informational logging,
because the persistence switch compares case-sensitively. -/
theorem claim_C10_case_sensitive_dispatch (cfg : ScanConfig) (w : World) (r : RunResult)
    (hok : (runScan cfg w).2 = Except.ok r)
    (h1 : cfg.outputFormat ≠ "sarif") (h2 : cfg.outputFormat ≠ "json") :
    r.out = [] ∧
    ((runScan cfg w).1.any Event.isFileWriteEv) = false ∧
    Event.info w.cmdOutput ∈ (runScan cfg w).1 := by
  obtain ⟨hsev, hfmt, hr, htr⟩ := runScan_ok_inv cfg w r hok
  subst hr
  refine ⟨by simp [persistOut, h1, h2], ?_, ?_⟩ <;> rw [htr]
  · simp [List.any_append, credEventsOf_no_fileWrite, exitCodePolicy_no_fileWrite,
      persistEvents, h1, h2, Event.isFileWriteEv]
  · simp [persistEvents, h1, h2]

/-- Claim C10 witness: the uppercase format SARIF. -/
theorem claim_C10_witness :
    (RunResult.mk []
        ["-o", "SARIF", "--fail-on", "medium", "dir:."]
        [("GOVULNERS_CHECK_FOR_APP_UPDATE", "false")]).out = [] ∧
    (((runScan ⟨"dir:.", "true", "medium", "false", "SARIF", "false"⟩
        ⟨"", "", false, 0, "OUT", []⟩).1).any Event.isFileWriteEv) = false ∧
    Event.info "OUT" ∈
      (runScan ⟨"dir:.", "true", "medium", "false", "SARIF", "false"⟩
        ⟨"", "", false, 0, "OUT", []⟩).1 :=
  claim_C10_case_sensitive_dispatch ⟨"dir:.", "true", "medium", "false", "SARIF", "false"⟩
    ⟨"", "", false, 0, "OUT", []⟩
    ⟨[], ["-o", "SARIF", "--fail-on", "medium", "dir:."],
      [("GOVULNERS_CHECK_FOR_APP_UPDATE", "false")]⟩
    (by decide) (by decide) (by decide)

end ScanAction
